import Mathlib

/-!
Shallow embedding of the entrolytics Go SDK (package `entrolytics`: client,
errors, middleware; package `client`: the duplicated generic client).

Modelling conventions:
- Go strings are Lean `String`; Go `time.Time` values are `DateTime` records
  (UTC components), with `Option DateTime` for fields whose Go zero value is
  checked via `IsZero` (`none` models the zero `time.Time`).
- Go `map[string]interface{}` values are association lists `List (String × Json)`.
- Go `float64` fields are never computed with by the SDK, only copied into
  payloads; they are modelled by the carrier `GoFloat`.
- The network itself is outside the program: each `...WithContext` method is
  modelled as the pure prefix of the Go function, returning either the
  validation error the Go code returns before any serialization/network work,
  or the fully constructed HTTP `Request` (endpoint, headers, typed body) that
  the Go code hands to the transport.
- `time.Now().UTC()` is passed in as an explicit `now : DateTime` argument.
- `json.Unmarshal` of a response body into `struct { Error string }` is a
  standard-library call; its outcome is modelled by `BodyParse` (`failed` when
  Unmarshal errors, `ok s` when it succeeds with the `error` field equal to
  `s`, the empty string when the key is absent).
-/

/-- A JSON-serializable value, modelling Go `interface{}` entries of
`map[string]interface{}` fields such as `Data`, `Traits`, `Attribution`. -/
inductive Json where
  | null
  | bool (b : Bool)
  | num (n : Int)
  | str (s : String)
  | arr (xs : List Json)
  | obj (fields : List (String × Json))

/-- A UTC instant, modelling Go `time.Time` after normalization (components in
the ranges the `time` package produces). -/
structure DateTime where
  year : Nat := 0
  month : Nat := 0
  day : Nat := 0
  hour : Nat := 0
  minute : Nat := 0
  second : Nat := 0
deriving DecidableEq

/-- The decimal digit character of `n % 10`, as produced by Go's decimal
formatting of an in-range time component. -/
def digitChar (n : Nat) : Char :=
  match n % 10 with
  | 0 => '0' | 1 => '1' | 2 => '2' | 3 => '3' | 4 => '4'
  | 5 => '5' | 6 => '6' | 7 => '7' | 8 => '8' | _ => '9'

/-- Model of Go `t.Format(time.RFC3339)` for a UTC `time.Time`: the layout
`2006-01-02T15:04:05Z` with zero-padded decimal components (the `time` package
keeps month/day/hour/minute/second in two-digit range and year in four-digit
range for all reachable values). -/
def rfc3339 (t : DateTime) : String :=
  String.mk [digitChar (t.year / 1000), digitChar (t.year / 100),
    digitChar (t.year / 10), digitChar t.year, '-',
    digitChar (t.month / 10), digitChar t.month, '-',
    digitChar (t.day / 10), digitChar t.day, 'T',
    digitChar (t.hour / 10), digitChar t.hour, ':',
    digitChar (t.minute / 10), digitChar t.minute, ':',
    digitChar (t.second / 10), digitChar t.second, 'Z']

/-- Shape check for an RFC3339 UTC timestamp string
`YYYY-MM-DDThh:mm:ssZ`. -/
def isRFC3339 (s : String) : Bool :=
  match s.toList with
  | [y1, y2, y3, y4, '-', mo1, mo2, '-', d1, d2, 'T',
     h1, h2, ':', mi1, mi2, ':', s1, s2, 'Z'] =>
    [y1, y2, y3, y4, mo1, mo2, d1, d2, h1, h2, mi1, mi2, s1, s2].all Char.isDigit
  | _ => false

/-- Carrier for Go `float64` fields, which the SDK only copies into payloads
and never computes with. -/
structure GoFloat where
  bits : Nat := 0

/-- Numeric value of a decimal digit string, used by `atoi`. -/
def digitsToNat (cs : List Char) : Nat :=
  cs.foldl (fun acc c => acc * 10 + (c.toNat - 48)) 0

/-- Model of Go `strconv.Atoi`: an optional sign followed by at least one
decimal digit and nothing else; `none` on any other input. (64-bit range
overflow is not modelled; every claim concerns small header values.) -/
def atoi (s : String) : Option Int :=
  match s.toList with
  | [] => none
  | '+' :: rest =>
    if rest ≠ [] ∧ rest.all Char.isDigit then some (Int.ofNat (digitsToNat rest))
    else none
  | '-' :: rest =>
    if rest ≠ [] ∧ rest.all Char.isDigit then some (-(Int.ofNat (digitsToNat rest)))
    else none
  | cs =>
    if cs.all Char.isDigit then some (Int.ofNat (digitsToNat cs))
    else none

namespace Entrolytics

/-- Mirrors `EntrolyticsError` from `errors.go` (`Code`, `Message`,
`StatusCode`; `StatusCode` is 0 for client-side validation errors). -/
structure EntrolyticsError where
  code : String
  message : String
  statusCode : Nat := 0
deriving DecidableEq

def ErrAPIKeyRequired : EntrolyticsError :=
  { code := "api_key_required", message := "API key is required" }

def ErrWebsiteIDRequired : EntrolyticsError :=
  { code := "website_id_required", message := "website ID is required" }

def ErrEventNameRequired : EntrolyticsError :=
  { code := "event_name_required", message := "event name is required" }

def ErrURLRequired : EntrolyticsError :=
  { code := "url_required", message := "URL is required" }

def ErrUserIDRequired : EntrolyticsError :=
  { code := "user_id_required", message := "user ID is required" }

def ErrVitalMetricRequired : EntrolyticsError :=
  { code := "vital_metric_required",
    message := "vital metric type is required (LCP, INP, CLS, TTFB, or FCP)" }

def ErrVitalRatingRequired : EntrolyticsError :=
  { code := "vital_rating_required",
    message := "vital rating is required (good, needs-improvement, or poor)" }

def ErrFormIDRequired : EntrolyticsError :=
  { code := "form_id_required", message := "form ID is required" }

def ErrFormEventTypeRequired : EntrolyticsError :=
  { code := "form_event_type_required", message := "form event type is required" }

def ErrURLPathRequired : EntrolyticsError :=
  { code := "url_path_required", message := "URL path is required" }

def ErrDeployIDRequired : EntrolyticsError :=
  { code := "deploy_id_required", message := "deployment ID is required" }

/-- The SDK's error union: `EntrolyticsError`, `AuthenticationError`,
`RateLimitError`, `NetworkError` (from `errors.go`). `NetworkError` only
arises from transport/marshal failures outside the modelled pure prefix. -/
inductive SDKError where
  | api (e : EntrolyticsError)
  | auth (message : String)
  | rateLimit (retryAfter : Int)
  | network (message : String)
deriving DecidableEq

/-- Outcome of `json.Unmarshal(body, &struct{ Error string }{})` on the
response body in the 400 branch of `handleResponse` (standard library,
modelled abstractly): `failed` when Unmarshal returns an error, `ok s` when it
succeeds with the `error` field equal to `s` (empty when absent). -/
inductive BodyParse where
  | failed
  | ok (errValue : String)
deriving DecidableEq

/-- The parts of an `*http.Response` that `handleResponse` reads: the status
code, `resp.Header.Get("Retry-After")` (empty string when the header is
absent, as in Go), and the parse outcome of the body (see `BodyParse`). -/
structure HttpResponse where
  statusCode : Nat
  retryAfterHeader : String
  bodyParse : BodyParse
deriving DecidableEq

/-- Mirrors `Client.handleResponse`: `none` is the `nil` (success) return,
`some` the typed error. -/
def handleResponse (resp : HttpResponse) : Option SDKError :=
  if resp.statusCode = 200 ∨ resp.statusCode = 201 then
    none
  else if resp.statusCode = 401 then
    some (.auth "")
  else if resp.statusCode = 400 then
    match resp.bodyParse with
    | .ok e =>
      if e ≠ "" then
        some (.api { code := "validation_error", message := e,
                     statusCode := resp.statusCode })
      else
        some (.api { code := "bad_request", message := "invalid request",
                     statusCode := resp.statusCode })
    | .failed =>
      some (.api { code := "bad_request", message := "invalid request",
                   statusCode := resp.statusCode })
  else if resp.statusCode = 429 then
    let retryAfter : Int :=
      if resp.retryAfterHeader ≠ "" then
        match atoi resp.retryAfterHeader with
        | some n => n
        | none => 0
      else 0
    some (.rateLimit retryAfter)
  else
    some (.api { code := "request_failed",
                 message := "request failed with status " ++ toString resp.statusCode,
                 statusCode := resp.statusCode })

/-- Mirrors the `Client` struct (the `http *http.Client` transport field is
outside the pure prefix and is omitted; `timeout` is in nanoseconds as Go's
`time.Duration`). -/
structure Client where
  apiKey : String := ""
  host : String := ""
  timeout : Nat := 0
  userAgent : String := ""

/-- Mirrors the `Event` struct from the types file. Field defaults are the Go
zero values; `timestamp = none` models the zero `time.Time`. -/
structure Event where
  websiteID : String := ""
  name : String := ""
  data : List (String × Json) := []
  url : String := ""
  referrer : String := ""
  userID : String := ""
  sessionID : String := ""
  userAgent : String := ""
  ipAddress : String := ""
  timestamp : Option DateTime := none

/-- Mirrors the `PageView` struct. -/
structure PageView where
  websiteID : String := ""
  url : String := ""
  referrer : String := ""
  title : String := ""
  userID : String := ""
  sessionID : String := ""
  userAgent : String := ""
  ipAddress : String := ""
  timestamp : Option DateTime := none

/-- Mirrors the `Identify` struct. -/
structure Identify where
  websiteID : String := ""
  userID : String := ""
  traits : List (String × Json) := []
  timestamp : Option DateTime := none

/-- Go's `VitalMetric`, `VitalRating`, `NavigationType`, `FormEventType` and
`DeploymentSource` are plain string types; they are modelled as `String` and
their constants as definitions below. -/
def LCP : String := "LCP"

def INP : String := "INP"

def CLS : String := "CLS"

def TTFB : String := "TTFB"

def FCP : String := "FCP"

/-- The declared `VitalMetric` constants, as a set of strings. -/
def vitalMetricValues : List String := [LCP, INP, CLS, TTFB, FCP]

def Good : String := "good"

def NeedsImprovement : String := "needs-improvement"

def Poor : String := "poor"

/-- The declared `VitalRating` constants, as a set of strings. -/
def vitalRatingValues : List String := [Good, NeedsImprovement, Poor]

/-- Mirrors the `WebVital` struct. -/
structure WebVital where
  websiteID : String := ""
  metric : String := ""
  value : GoFloat := {}
  rating : String := ""
  delta : GoFloat := {}
  id : String := ""
  navigationType : String := ""
  attribution : List (String × Json) := []
  url : String := ""
  path : String := ""
  sessionID : String := ""
  timestamp : Option DateTime := none

/-- Mirrors the `FormEvent` struct. -/
structure FormEvent where
  websiteID : String := ""
  eventType : String := ""
  formID : String := ""
  formName : String := ""
  urlPath : String := ""
  fieldName : String := ""
  fieldType : String := ""
  fieldIndex : Int := 0
  timeOnField : Int := 0
  timeSinceStart : Int := 0
  errorMessage : String := ""
  success : Bool := false
  sessionID : String := ""
  timestamp : Option DateTime := none

/-- Mirrors the `Deployment` struct. -/
structure Deployment where
  websiteID : String := ""
  deployID : String := ""
  gitSha : String := ""
  gitBranch : String := ""
  deployURL : String := ""
  source : String := ""

/-- Mirrors the wire struct `trackPayload` (JSON tags: `website`, `name`,
`data,omitempty`, `url,omitempty`, `referrer,omitempty`, `userId,omitempty`,
`sessionId,omitempty`, `timestamp`). The `timestamp` field is a `String`
exactly as in the Go struct. -/
structure TrackPayload where
  website : String
  name : String
  data : List (String × Json)
  url : String
  referrer : String
  userID : String
  sessionID : String
  timestamp : String

/-- Mirrors the wire struct `identifyPayload`. -/
structure IdentifyPayload where
  website : String
  userID : String
  traits : List (String × Json)
  timestamp : String

/-- Mirrors the wire struct `vitalPayload`. -/
structure VitalPayload where
  website : String
  metric : String
  value : GoFloat
  rating : String
  delta : GoFloat
  id : String
  navigationType : String
  attribution : List (String × Json)
  url : String
  path : String
  sessionID : String

/-- Mirrors the wire struct `formEventPayload`. -/
structure FormEventPayload where
  website : String
  eventType : String
  formID : String
  formName : String
  urlPath : String
  fieldName : String
  fieldType : String
  fieldIndex : Int
  timeOnField : Int
  timeSinceStart : Int
  errorMessage : String
  success : Bool
  sessionID : String

/-- Mirrors the wire struct `deploymentPayload`. -/
structure DeploymentPayload where
  website : String
  deployID : String
  gitSha : String
  gitBranch : String
  deployURL : String
  source : String

/-- The inner payload of the `eventPayload` envelope (`Payload interface{}`
carries a `trackPayload` or an `identifyPayload`). -/
inductive InnerPayload where
  | track (p : TrackPayload)
  | identify (p : IdentifyPayload)

/-- The `payload interface{}` argument of `sendToEndpoint`: either the
`eventPayload` envelope (`{Type, Payload}`) or one of the flat Phase-2
payload structs. -/
inductive Payload where
  | envelope (ptype : String) (inner : InnerPayload)
  | vital (p : VitalPayload)
  | formEvent (p : FormEventPayload)
  | deployment (p : DeploymentPayload)

/-- The HTTP POST that `sendToEndpoint` constructs and hands to the transport:
URL `host ++ endpoint`, headers in the order the Go code sets them, and the
typed body (which `json.Marshal` serializes; the marshalling itself is a
function of `body` alone). -/
structure Request where
  url : String
  endpoint : String
  headers : List (String × String)
  body : Payload

/-- Mirrors `Client.sendToEndpoint` up to the transport call: builds the
request with `Authorization`, `Content-Type`, `User-Agent` headers, plus
`X-Forwarded-User-Agent` / `X-Forwarded-For` only when the corresponding
argument is non-empty. -/
def sendToEndpoint (c : Client) (endpoint : String) (payload : Payload)
    (userAgent ipAddress : String) : Request :=
  { url := c.host ++ endpoint
    endpoint := endpoint
    headers :=
      [("Authorization", "Bearer " ++ c.apiKey),
       ("Content-Type", "application/json"),
       ("User-Agent", c.userAgent)]
      ++ (if userAgent ≠ "" then [("X-Forwarded-User-Agent", userAgent)] else [])
      ++ (if ipAddress ≠ "" then [("X-Forwarded-For", ipAddress)] else [])
    body := payload }

/-- Mirrors `Client.send`: delegates to `sendToEndpoint` with `/api/send`. -/
def send (c : Client) (payload : Payload) (userAgent ipAddress : String) : Request :=
  sendToEndpoint c "/api/send" payload userAgent ipAddress

/-- Mirrors `Client.TrackWithContext` up to the transport call: the Go
function either returns a validation error before any serialization or
network work (`.error`), or performs exactly the request modelled by `.ok`.
`now` stands for `time.Now().UTC()`. -/
def trackWithContext (c : Client) (now : DateTime) (event : Event) :
    Except EntrolyticsError Request :=
  if c.apiKey = "" then .error ErrAPIKeyRequired
  else if event.websiteID = "" then .error ErrWebsiteIDRequired
  else if event.name = "" then .error ErrEventNameRequired
  else
    .ok (send c
      (.envelope "event" (.track
        { website := event.websiteID
          name := event.name
          data := event.data
          url := event.url
          referrer := event.referrer
          userID := event.userID
          sessionID := event.sessionID
          timestamp := rfc3339 (event.timestamp.getD now) }))
      event.userAgent event.ipAddress)

/-- Mirrors `Client.PageViewWithContext` up to the transport call. -/
def pageViewWithContext (c : Client) (now : DateTime) (pv : PageView) :
    Except EntrolyticsError Request :=
  if c.apiKey = "" then .error ErrAPIKeyRequired
  else if pv.websiteID = "" then .error ErrWebsiteIDRequired
  else if pv.url = "" then .error ErrURLRequired
  else
    let data : List (String × Json) :=
      if pv.title ≠ "" then [("title", Json.str pv.title)] else []
    .ok (send c
      (.envelope "event" (.track
        { website := pv.websiteID
          name := "$pageview"
          data := data
          url := pv.url
          referrer := pv.referrer
          userID := pv.userID
          sessionID := pv.sessionID
          timestamp := rfc3339 (pv.timestamp.getD now) }))
      pv.userAgent pv.ipAddress)

/-- Mirrors `Client.IdentifyWithContext` up to the transport call (note the
empty `userAgent`/`ipAddress` arguments in the Go call `c.send(ctx, payload,
"", "")`). -/
def identifyWithContext (c : Client) (now : DateTime) (idr : Identify) :
    Except EntrolyticsError Request :=
  if c.apiKey = "" then .error ErrAPIKeyRequired
  else if idr.websiteID = "" then .error ErrWebsiteIDRequired
  else if idr.userID = "" then .error ErrUserIDRequired
  else
    .ok (send c
      (.envelope "identify" (.identify
        { website := idr.websiteID
          userID := idr.userID
          traits := idr.traits
          timestamp := rfc3339 (idr.timestamp.getD now) }))
      "" "")

/-- Mirrors `Client.TrackVitalWithContext` up to the transport call. The Go
code checks only that `Metric` and `Rating` are non-empty strings. -/
def trackVitalWithContext (c : Client) (vital : WebVital) :
    Except EntrolyticsError Request :=
  if c.apiKey = "" then .error ErrAPIKeyRequired
  else if vital.websiteID = "" then .error ErrWebsiteIDRequired
  else if vital.metric = "" then .error ErrVitalMetricRequired
  else if vital.rating = "" then .error ErrVitalRatingRequired
  else
    .ok (sendToEndpoint c "/api/collect/vitals"
      (.vital
        { website := vital.websiteID
          metric := vital.metric
          value := vital.value
          rating := vital.rating
          delta := vital.delta
          id := vital.id
          navigationType := vital.navigationType
          attribution := vital.attribution
          url := vital.url
          path := vital.path
          sessionID := vital.sessionID })
      "" "")

/-- Mirrors `Client.TrackFormEventWithContext` up to the transport call. -/
def trackFormEventWithContext (c : Client) (event : FormEvent) :
    Except EntrolyticsError Request :=
  if c.apiKey = "" then .error ErrAPIKeyRequired
  else if event.websiteID = "" then .error ErrWebsiteIDRequired
  else if event.formID = "" then .error ErrFormIDRequired
  else if event.eventType = "" then .error ErrFormEventTypeRequired
  else if event.urlPath = "" then .error ErrURLPathRequired
  else
    .ok (sendToEndpoint c "/api/collect/forms"
      (.formEvent
        { website := event.websiteID
          eventType := event.eventType
          formID := event.formID
          formName := event.formName
          urlPath := event.urlPath
          fieldName := event.fieldName
          fieldType := event.fieldType
          fieldIndex := event.fieldIndex
          timeOnField := event.timeOnField
          timeSinceStart := event.timeSinceStart
          errorMessage := event.errorMessage
          success := event.success
          sessionID := event.sessionID })
      "" "")

/-- Mirrors `Client.SetDeploymentWithContext` up to the transport call. -/
def setDeploymentWithContext (c : Client) (deploy : Deployment) :
    Except EntrolyticsError Request :=
  if c.apiKey = "" then .error ErrAPIKeyRequired
  else if deploy.websiteID = "" then .error ErrWebsiteIDRequired
  else if deploy.deployID = "" then .error ErrDeployIDRequired
  else
    .ok (sendToEndpoint c
      ("/api/websites/" ++ deploy.websiteID ++ "/deployments")
      (.deployment
        { website := deploy.websiteID
          deployID := deploy.deployID
          gitSha := deploy.gitSha
          gitBranch := deploy.gitBranch
          deployURL := deploy.deployURL
          source := deploy.source })
      "" "")

/-- The body of the request a call would issue, when validation passed. -/
def sentBody : Except EntrolyticsError Request → Option Payload
  | .ok r => some r.body
  | .error _ => none

/-- The `timestamp` string field of the envelope's inner payload, when the
call's body is an envelope; expresses that the wire timestamp is a `String`
field and is present. -/
def sentTimestamp : Except EntrolyticsError Request → Option String
  | .ok r =>
    match r.body with
    | .envelope _ (.track p) => some p.timestamp
    | .envelope _ (.identify p) => some p.timestamp
    | _ => none
  | .error _ => none

/-- The `name` field of the sent track payload, when there is one. -/
def sentEventName : Except EntrolyticsError Request → Option String
  | .ok r =>
    match r.body with
    | .envelope _ (.track p) => some p.name
    | _ => none
  | .error _ => none

/-- The `data` map of the sent track payload, when there is one. -/
def sentEventData : Except EntrolyticsError Request → Option (List (String × Json))
  | .ok r =>
    match r.body with
    | .envelope _ (.track p) => some p.data
    | _ => none
  | .error _ => none

/-- All values set for a given header key on a request. An unset header is the
empty list. -/
def headerValues (req : Request) (k : String) : List String :=
  (req.headers.filter fun p => p.1 == k).map fun p => p.2

/-- The parts of an inbound `*http.Request` that the middleware's
`getClientIP` reads: the header map (`Header.Get` returns the first value for
a key, or the empty string) and `RemoteAddr`. -/
structure InboundRequest where
  headers : List (String × String)
  remoteAddr : String

/-- Model of `r.Header.Get(k)`: first value for the key, empty string when the
header is absent (header-name canonicalization is not modelled; keys are used
in canonical form throughout). -/
def headerGet (r : InboundRequest) (k : String) : String :=
  (r.headers.lookup k).getD ""

/-- Model of `strings.TrimSpace` (Go trims Unicode whitespace; `String.trim`
trims ASCII whitespace, which coincides on the address/header values at
issue). -/
def trimSpace (s : String) : String := s.trim

/-- The prefix of `s` up to (excluding) the first `','`, the whole string when
there is none: `s[:strings.Index(s, ",")]` merged with the no-comma branch. -/
def beforeFirstComma (s : String) : String :=
  String.mk (s.toList.takeWhile fun c => c ≠ ',')

/-- The prefix of `s` up to (excluding) the last `':'`, the whole string when
there is none: mirrors `ip[:strings.LastIndex(ip, ":")]` guarded by
`!= -1`. -/
def stripAfterLastColon (s : String) : String :=
  match s.toList.reverse.dropWhile (fun c => c ≠ ':') with
  | [] => s
  | _ :: rest => String.mk rest.reverse

/-- Mirrors `getClientIP` from `middleware.go`: `X-Forwarded-For` first entry
(trimmed), then `X-Real-IP`, then `CF-Connecting-IP`, then `RemoteAddr` with
the text after the last colon stripped. -/
def getClientIP (r : InboundRequest) : String :=
  let xff := headerGet r "X-Forwarded-For"
  if xff ≠ "" then
    trimSpace (beforeFirstComma xff)
  else
    let xri := headerGet r "X-Real-IP"
    if xri ≠ "" then xri
    else
      let cfip := headerGet r "CF-Connecting-IP"
      if cfip ≠ "" then cfip
      else stripAfterLastColon r.remoteAddr

end Entrolytics

namespace GClient

/-- Mirrors `Config` from the second client implementation (`package client`);
`timeout` as Go `time.Duration` nanoseconds. -/
structure Config where
  endpoint : String := ""
  apiKey : String := ""
  timeout : Nat := 0
  debug : Bool := false

/-- Mirrors the generic client's `Event` struct (JSON tags `event`,
`properties,omitempty`, `userId,omitempty`, `anonymousId,omitempty`,
`timestamp,omitempty`, `website_id,omitempty`). `timestamp = none` models the
zero `time.Time`. -/
structure Event where
  event : String := ""
  properties : List (String × Json) := []
  userID : String := ""
  anonymousID : String := ""
  timestamp : Option DateTime := none
  websiteID : String := ""

/-- A value of the `map[string]interface{}` payload built by the generic
client: the `timestamp` entry holds the native `time.Time`, the others hold
strings or the properties map. -/
inductive GValue where
  | str (s : String)
  | json (j : Json)
  | time (t : DateTime)

/-- The payload map literal that both `TrackWithContext` and the loop body of
`BatchWithContext` construct for one event, after the two defaulting steps
(`Timestamp` to `time.Now()`, `WebsiteID` to `config.APIKey`). Both Go
functions build this identical `map[string]interface{}` literal. -/
def eventRecord (cfg : Config) (now : DateTime) (e : Event) : List (String × GValue) :=
  let timestamp := e.timestamp.getD now
  let websiteID := if e.websiteID = "" then cfg.apiKey else e.websiteID
  [("event", .str e.event),
   ("properties", .json (Json.obj e.properties)),
   ("userId", .str e.userID),
   ("anonymousId", .str e.anonymousID),
   ("timestamp", .time timestamp),
   ("website_id", .str websiteID)]

/-- Body of a generic-client request: one payload map (`/collect`) or an array
of payload maps (`/collect/batch`). -/
inductive GBody where
  | single (record : List (String × GValue))
  | batch (records : List (List (String × GValue)))

/-- The HTTP POST the generic client hands to its transport. -/
structure GRequest where
  url : String
  headers : List (String × String)
  body : GBody

/-- Mirrors the generic client's `TrackWithContext` up to the transport call
(`now` stands for `time.Now()`; the debug print has no effect on the
request). -/
def gTrackWithContext (cfg : Config) (now : DateTime) (e : Event) : GRequest :=
  { url := cfg.endpoint ++ "/collect"
    headers :=
      [("Content-Type", "application/json"),
       ("Authorization", "Bearer " ++ cfg.apiKey)]
    body := .single (eventRecord cfg now e) }

/-- Mirrors the generic client's `BatchWithContext` up to the transport call:
`nil` return (no request at all) on an empty slice, otherwise one request with
the array of per-event payload maps. -/
def gBatchWithContext (cfg : Config) (now : DateTime) (events : List Event) :
    Option GRequest :=
  if events.isEmpty then none
  else
    some
      { url := cfg.endpoint ++ "/collect/batch"
        headers :=
          [("Content-Type", "application/json"),
           ("Authorization", "Bearer " ++ cfg.apiKey)]
        body := .batch (events.map (eventRecord cfg now)) }

end GClient

open Entrolytics

theorem digitChar_isDigit (n : Nat) : (digitChar n).isDigit = true := by
  unfold digitChar
  split <;> rfl

theorem rfc3339_isRFC3339 (t : DateTime) : isRFC3339 (rfc3339 t) = true := by
  show [digitChar (t.year / 1000), digitChar (t.year / 100),
    digitChar (t.year / 10), digitChar t.year,
    digitChar (t.month / 10), digitChar t.month,
    digitChar (t.day / 10), digitChar t.day,
    digitChar (t.hour / 10), digitChar t.hour,
    digitChar (t.minute / 10), digitChar t.minute,
    digitChar (t.second / 10), digitChar t.second].all Char.isDigit = true
  simp [digitChar_isDigit]

/-- Used by the C1 counterexample: whether a classifier result is a
`request_failed` API error. -/
def isRequestFailedResult : Option SDKError → Bool
  | some (.api e) => e.code == "request_failed"
  | _ => false

/-- C1 counterexample: status 429 is a non-2xx status other than 200/201,
401 and 400, yet `handleResponse` returns `RateLimitError` (here with
`RetryAfter` 0), not the `request_failed` `EntrolyticsError` the claim's
"any other non-2xx status" clause predicts. -/
theorem c1_429_not_request_failed :
    handleResponse { statusCode := 429, retryAfterHeader := "", bodyParse := .ok "" }
      = some (.rateLimit 0) ∧
    isRequestFailedResult
      (handleResponse { statusCode := 429, retryAfterHeader := "", bodyParse := .ok "" })
      = false := by
  decide

/-- C1 (amended): the shared response classifier returns success on 200/201,
`AuthenticationError` on 401, on 400 `validation_error` when the body parses
with a non-empty `error` field and `bad_request` otherwise (parse failures
swallowed), and on any other non-2xx status except 429 — which yields
`RateLimitError` instead — `request_failed` carrying that status. -/
theorem c1_response_classifier_amended (resp : HttpResponse) :
    ((resp.statusCode = 200 ∨ resp.statusCode = 201) → handleResponse resp = none) ∧
    (resp.statusCode = 401 → handleResponse resp = some (.auth "")) ∧
    (resp.statusCode = 400 → ∀ e, resp.bodyParse = .ok e → e ≠ "" →
      handleResponse resp =
        some (.api { code := "validation_error", message := e, statusCode := 400 })) ∧
    (resp.statusCode = 400 → (resp.bodyParse = .failed ∨ resp.bodyParse = .ok "") →
      handleResponse resp =
        some (.api { code := "bad_request", message := "invalid request",
                     statusCode := 400 })) ∧
    (resp.statusCode = 429 → ∃ k, handleResponse resp = some (.rateLimit k)) ∧
    (¬(200 ≤ resp.statusCode ∧ resp.statusCode < 300) → resp.statusCode ≠ 400 →
      resp.statusCode ≠ 401 → resp.statusCode ≠ 429 →
      handleResponse resp =
        some (.api { code := "request_failed",
                     message := "request failed with status " ++ toString resp.statusCode,
                     statusCode := resp.statusCode })) := by
  refine ⟨?_, ?_, ?_, ?_, ?_, ?_⟩
  · intro h
    unfold handleResponse
    rw [if_pos h]
  · intro h
    unfold handleResponse
    rw [h]
    norm_num
  · intro h e hb hne
    unfold handleResponse
    rw [h, hb]
    norm_num [hne]
  · intro h hb
    unfold handleResponse
    rw [h]
    rcases hb with hb | hb <;> rw [hb] <;> norm_num
  · intro h
    unfold handleResponse
    rw [h]
    norm_num
  · intro h1 h2 h3 h4
    have g1 : ¬(resp.statusCode = 200 ∨ resp.statusCode = 201) := by omega
    have g2 : ¬(resp.statusCode = 401) := h3
    have g3 : ¬(resp.statusCode = 400) := h2
    have g4 : ¬(resp.statusCode = 429) := h4
    unfold handleResponse
    rw [if_neg g1, if_neg g2, if_neg g3, if_neg g4]

theorem c1_response_classifier_amended_witness :
    handleResponse { statusCode := 200, retryAfterHeader := "", bodyParse := .ok "" }
      = none ∧
    handleResponse { statusCode := 401, retryAfterHeader := "", bodyParse := .ok "" }
      = some (.auth "") ∧
    handleResponse { statusCode := 400, retryAfterHeader := "", bodyParse := .ok "bad website" }
      = some (.api { code := "validation_error", message := "bad website", statusCode := 400 }) ∧
    handleResponse { statusCode := 400, retryAfterHeader := "", bodyParse := .failed }
      = some (.api { code := "bad_request", message := "invalid request", statusCode := 400 }) ∧
    handleResponse { statusCode := 503, retryAfterHeader := "", bodyParse := .ok "" }
      = some (.api { code := "request_failed",
                     message := "request failed with status " ++ toString 503,
                     statusCode := 503 }) :=
  ⟨(c1_response_classifier_amended _).1 (Or.inl rfl),
   (c1_response_classifier_amended _).2.1 rfl,
   (c1_response_classifier_amended _).2.2.1 rfl "bad website" rfl (by decide),
   (c1_response_classifier_amended _).2.2.2.1 rfl (Or.inl rfl),
   (c1_response_classifier_amended _).2.2.2.2.2 (by decide) (by decide) (by decide) (by decide)⟩

/-- C5: on status 429 the classifier returns `RateLimitError` whose
`RetryAfter` is the integer value of the `Retry-After` header when it parses
(Go `strconv.Atoi`), and 0 when the header is absent (empty) or non-numeric;
being a total function, the classifier never fails on a malformed value. -/
theorem c5_rate_limit_retry_after (resp : HttpResponse)
    (h429 : resp.statusCode = 429) :
    handleResponse resp =
      some (.rateLimit (match atoi resp.retryAfterHeader with
        | some n => n
        | none => 0)) := by
  unfold handleResponse
  rw [h429]
  norm_num
  by_cases hh : resp.retryAfterHeader = ""
  · simp [hh, atoi]
  · simp [hh]

theorem c5_rate_limit_retry_after_witness :
    handleResponse { statusCode := 429, retryAfterHeader := "30", bodyParse := .ok "" }
      = some (.rateLimit 30) := by
  have h := c5_rate_limit_retry_after
    { statusCode := 429, retryAfterHeader := "30", bodyParse := .ok "" } rfl
  simpa using h

/-- C10: a 2xx status other than 200/201 (e.g. 204) is not treated as
success: the classifier falls through to the default branch and reports
`request_failed` carrying that status code. -/
theorem c10_other_2xx_request_failed (resp : HttpResponse)
    (h1 : 200 ≤ resp.statusCode) (h2 : resp.statusCode < 300)
    (h3 : resp.statusCode ≠ 200) (h4 : resp.statusCode ≠ 201) :
    handleResponse resp =
      some (.api { code := "request_failed",
                   message := "request failed with status " ++ toString resp.statusCode,
                   statusCode := resp.statusCode }) := by
  have g1 : ¬(resp.statusCode = 200 ∨ resp.statusCode = 201) := by omega
  have g2 : ¬(resp.statusCode = 401) := by omega
  have g3 : ¬(resp.statusCode = 400) := by omega
  have g4 : ¬(resp.statusCode = 429) := by omega
  unfold handleResponse
  rw [if_neg g1, if_neg g2, if_neg g3, if_neg g4]

theorem c10_other_2xx_request_failed_witness :
    handleResponse { statusCode := 204, retryAfterHeader := "", bodyParse := .ok "" }
      = some (.api { code := "request_failed",
                     message := "request failed with status " ++ toString 204,
                     statusCode := 204 }) :=
  c10_other_2xx_request_failed _ (by decide) (by decide) (by decide) (by decide)

/-- C2: with a non-empty configured API key, every call whose record misses a
required field returns the validation error naming that missing field (the
first empty field in the Go check order) as an `.error` result, i.e. before
any payload is constructed, serialized, or sent. -/
theorem c2_missing_required_field (c : Client) (hkey : c.apiKey ≠ "")
    (now : DateTime) (e : Event) (pv : PageView) (idr : Identify)
    (v : WebVital) (f : FormEvent) (d : Deployment) :
    (e.websiteID = "" → trackWithContext c now e = .error ErrWebsiteIDRequired) ∧
    (e.websiteID ≠ "" → e.name = "" →
      trackWithContext c now e = .error ErrEventNameRequired) ∧
    (pv.websiteID = "" → pageViewWithContext c now pv = .error ErrWebsiteIDRequired) ∧
    (pv.websiteID ≠ "" → pv.url = "" →
      pageViewWithContext c now pv = .error ErrURLRequired) ∧
    (idr.websiteID = "" → identifyWithContext c now idr = .error ErrWebsiteIDRequired) ∧
    (idr.websiteID ≠ "" → idr.userID = "" →
      identifyWithContext c now idr = .error ErrUserIDRequired) ∧
    (v.websiteID = "" → trackVitalWithContext c v = .error ErrWebsiteIDRequired) ∧
    (v.websiteID ≠ "" → v.metric = "" →
      trackVitalWithContext c v = .error ErrVitalMetricRequired) ∧
    (v.websiteID ≠ "" → v.metric ≠ "" → v.rating = "" →
      trackVitalWithContext c v = .error ErrVitalRatingRequired) ∧
    (f.websiteID = "" → trackFormEventWithContext c f = .error ErrWebsiteIDRequired) ∧
    (f.websiteID ≠ "" → f.formID = "" →
      trackFormEventWithContext c f = .error ErrFormIDRequired) ∧
    (f.websiteID ≠ "" → f.formID ≠ "" → f.eventType = "" →
      trackFormEventWithContext c f = .error ErrFormEventTypeRequired) ∧
    (f.websiteID ≠ "" → f.formID ≠ "" → f.eventType ≠ "" → f.urlPath = "" →
      trackFormEventWithContext c f = .error ErrURLPathRequired) ∧
    (d.websiteID = "" → setDeploymentWithContext c d = .error ErrWebsiteIDRequired) ∧
    (d.websiteID ≠ "" → d.deployID = "" →
      setDeploymentWithContext c d = .error ErrDeployIDRequired) := by
  refine ⟨?_, ?_, ?_, ?_, ?_, ?_, ?_, ?_, ?_, ?_, ?_, ?_, ?_, ?_, ?_⟩
  · intro h1
    simp [trackWithContext, hkey, h1]
  · intro h1 h2
    simp [trackWithContext, hkey, h1, h2]
  · intro h1
    simp [pageViewWithContext, hkey, h1]
  · intro h1 h2
    simp [pageViewWithContext, hkey, h1, h2]
  · intro h1
    simp [identifyWithContext, hkey, h1]
  · intro h1 h2
    simp [identifyWithContext, hkey, h1, h2]
  · intro h1
    simp [trackVitalWithContext, hkey, h1]
  · intro h1 h2
    simp [trackVitalWithContext, hkey, h1, h2]
  · intro h1 h2 h3
    simp [trackVitalWithContext, hkey, h1, h2, h3]
  · intro h1
    simp [trackFormEventWithContext, hkey, h1]
  · intro h1 h2
    simp [trackFormEventWithContext, hkey, h1, h2]
  · intro h1 h2 h3
    simp [trackFormEventWithContext, hkey, h1, h2, h3]
  · intro h1 h2 h3 h4
    simp [trackFormEventWithContext, hkey, h1, h2, h3, h4]
  · intro h1
    simp [setDeploymentWithContext, hkey, h1]
  · intro h1 h2
    simp [setDeploymentWithContext, hkey, h1, h2]

theorem c2_missing_required_field_witness :
    trackWithContext { apiKey := "ent_k" } {} { name := "purchase" }
      = .error ErrWebsiteIDRequired ∧
    trackWithContext { apiKey := "ent_k" } {} { websiteID := "abc123" }
      = .error ErrEventNameRequired ∧
    pageViewWithContext { apiKey := "ent_k" } {} { websiteID := "abc123" }
      = .error ErrURLRequired ∧
    identifyWithContext { apiKey := "ent_k" } {} { websiteID := "abc123" }
      = .error ErrUserIDRequired ∧
    trackVitalWithContext { apiKey := "ent_k" } { websiteID := "abc123" }
      = .error ErrVitalMetricRequired ∧
    trackFormEventWithContext { apiKey := "ent_k" } { websiteID := "abc123" }
      = .error ErrFormIDRequired ∧
    setDeploymentWithContext { apiKey := "ent_k" } { websiteID := "abc123" }
      = .error ErrDeployIDRequired :=
  ⟨(c2_missing_required_field _ (by decide) {} _ {} {} {} {} {}).1 rfl,
   (c2_missing_required_field _ (by decide) {} _ {} {} {} {} {}).2.1 (by decide) rfl,
   (c2_missing_required_field _ (by decide) {} {} _ {} {} {} {}).2.2.2.1 (by decide) rfl,
   (c2_missing_required_field _ (by decide) {} {} {} _ {} {} {}).2.2.2.2.2.1 (by decide) rfl,
   (c2_missing_required_field _ (by decide) {} {} {} {} _ {} {}).2.2.2.2.2.2.2.1
     (by decide) rfl,
   (c2_missing_required_field _ (by decide) {} {} {} {} {} _ {}).2.2.2.2.2.2.2.2.2.2.1
     (by decide) rfl,
   (c2_missing_required_field _ (by decide) {} {} {} {} {} {} _).2.2.2.2.2.2.2.2.2.2.2.2.2.2
     (by decide) rfl⟩

/-- C3: every valid Track call sends an envelope whose payload `timestamp` is
present and is a `String` in RFC3339 shape; it formats the caller-supplied
timestamp when that one is non-zero and the invocation instant
(`time.Now().UTC()`, here `now`) otherwise. -/
theorem c3_track_timestamp_rfc3339 (c : Client) (now : DateTime) (e : Event)
    (hkey : c.apiKey ≠ "") (hw : e.websiteID ≠ "") (hn : e.name ≠ "") :
    sentTimestamp (trackWithContext c now e)
      = some (rfc3339 (e.timestamp.getD now)) ∧
    isRFC3339 (rfc3339 (e.timestamp.getD now)) = true := by
  constructor
  · simp [trackWithContext, hkey, hw, hn, sentTimestamp, send, sendToEndpoint]
  · exact rfc3339_isRFC3339 _

theorem c3_track_timestamp_rfc3339_witness :
    sentTimestamp (trackWithContext { apiKey := "ent_k" }
        { year := 2024, month := 5, day := 1, hour := 12 }
        { websiteID := "abc123", name := "purchase" })
      = some (rfc3339 ((none : Option DateTime).getD
          { year := 2024, month := 5, day := 1, hour := 12 })) ∧
    isRFC3339 (rfc3339 ((none : Option DateTime).getD
        { year := 2024, month := 5, day := 1, hour := 12 })) = true :=
  c3_track_timestamp_rfc3339 _ _ _ (by decide) (by decide) (by decide)

/-- C4: every valid PageView call sends the reserved event name `$pageview`
(never a caller-chosen name), with `data` empty when `Title` is empty and
exactly the singleton `title ↦ Title` otherwise. -/
theorem c4_pageview_sentinel_and_title (c : Client) (now : DateTime) (pv : PageView)
    (hkey : c.apiKey ≠ "") (hw : pv.websiteID ≠ "") (hu : pv.url ≠ "") :
    sentEventName (pageViewWithContext c now pv) = some "$pageview" ∧
    (pv.title = "" → sentEventData (pageViewWithContext c now pv) = some []) ∧
    (pv.title ≠ "" → sentEventData (pageViewWithContext c now pv)
      = some [("title", Json.str pv.title)]) := by
  refine ⟨?_, ?_, ?_⟩
  · simp [pageViewWithContext, hkey, hw, hu, sentEventName, send, sendToEndpoint]
  · intro ht
    simp [pageViewWithContext, hkey, hw, hu, ht, sentEventData, send, sendToEndpoint]
  · intro ht
    simp [pageViewWithContext, hkey, hw, hu, ht, sentEventData, send, sendToEndpoint]

theorem c4_pageview_sentinel_and_title_witness :
    sentEventName (pageViewWithContext { apiKey := "ent_k" } {}
        { websiteID := "abc123", url := "/pricing" }) = some "$pageview" ∧
    sentEventData (pageViewWithContext { apiKey := "ent_k" } {}
        { websiteID := "abc123", url := "/pricing" }) = some [] ∧
    sentEventData (pageViewWithContext { apiKey := "ent_k" } {}
        { websiteID := "abc123", url := "/pricing", title := "Pricing" })
      = some [("title", Json.str "Pricing")] :=
  ⟨(c4_pageview_sentinel_and_title _ {} _ (by decide) (by decide) (by decide)).1,
   (c4_pageview_sentinel_and_title _ {} _ (by decide) (by decide) (by decide)).2.1 rfl,
   (c4_pageview_sentinel_and_title _ {}
      { websiteID := "abc123", url := "/pricing", title := "Pricing" }
      (by decide) (by decide) (by decide)).2.2 (by decide)⟩

/-- C6: for Track and PageView the caller's `UserAgent`/`IPAddress` never
reach the request body (the body is unchanged under any values of the two
fields), and are set as the `X-Forwarded-User-Agent` / `X-Forwarded-For`
headers exactly when non-empty (no such header at all when empty); Identify
passes empty strings to `send` and therefore never sets either header. -/
theorem c6_forwarding_headers_not_body (c : Client) (now : DateTime)
    (e : Event) (pv : PageView) (idr : Identify) (ua ip : String) :
    sentBody (trackWithContext c now e)
      = sentBody (trackWithContext c now { e with userAgent := ua, ipAddress := ip }) ∧
    sentBody (pageViewWithContext c now pv)
      = sentBody (pageViewWithContext c now { pv with userAgent := ua, ipAddress := ip }) ∧
    (∀ req, trackWithContext c now e = .ok req →
      headerValues req "X-Forwarded-User-Agent"
        = (if e.userAgent = "" then [] else [e.userAgent]) ∧
      headerValues req "X-Forwarded-For"
        = (if e.ipAddress = "" then [] else [e.ipAddress])) ∧
    (∀ req, pageViewWithContext c now pv = .ok req →
      headerValues req "X-Forwarded-User-Agent"
        = (if pv.userAgent = "" then [] else [pv.userAgent]) ∧
      headerValues req "X-Forwarded-For"
        = (if pv.ipAddress = "" then [] else [pv.ipAddress])) ∧
    (∀ req, identifyWithContext c now idr = .ok req →
      headerValues req "X-Forwarded-User-Agent" = [] ∧
      headerValues req "X-Forwarded-For" = []) := by
  refine ⟨?_, ?_, ?_, ?_, ?_⟩
  · by_cases h1 : c.apiKey = "" <;> by_cases h2 : e.websiteID = "" <;>
      by_cases h3 : e.name = "" <;>
      simp [trackWithContext, sentBody, send, sendToEndpoint, h1, h2, h3]
  · by_cases h1 : c.apiKey = "" <;> by_cases h2 : pv.websiteID = "" <;>
      by_cases h3 : pv.url = "" <;>
      simp [pageViewWithContext, sentBody, send, sendToEndpoint, h1, h2, h3]
  · intro req hreq
    by_cases h1 : c.apiKey = ""
    · simp [trackWithContext, h1] at hreq
    · by_cases h2 : e.websiteID = ""
      · simp [trackWithContext, h1, h2] at hreq
      · by_cases h3 : e.name = ""
        · simp [trackWithContext, h1, h2, h3] at hreq
        · simp [trackWithContext, h1, h2, h3] at hreq
          rw [← hreq]
          by_cases hua : e.userAgent = "" <;> by_cases hip : e.ipAddress = "" <;>
            simp [headerValues, send, sendToEndpoint, hua, hip]
  · intro req hreq
    by_cases h1 : c.apiKey = ""
    · simp [pageViewWithContext, h1] at hreq
    · by_cases h2 : pv.websiteID = ""
      · simp [pageViewWithContext, h1, h2] at hreq
      · by_cases h3 : pv.url = ""
        · simp [pageViewWithContext, h1, h2, h3] at hreq
        · simp [pageViewWithContext, h1, h2, h3] at hreq
          rw [← hreq]
          by_cases hua : pv.userAgent = "" <;> by_cases hip : pv.ipAddress = "" <;>
            simp [headerValues, send, sendToEndpoint, hua, hip]
  · intro req hreq
    by_cases h1 : c.apiKey = ""
    · simp [identifyWithContext, h1] at hreq
    · by_cases h2 : idr.websiteID = ""
      · simp [identifyWithContext, h1, h2] at hreq
      · by_cases h3 : idr.userID = ""
        · simp [identifyWithContext, h1, h2, h3] at hreq
        · simp [identifyWithContext, h1, h2, h3] at hreq
          rw [← hreq]
          simp [headerValues, send, sendToEndpoint]

theorem c6_forwarding_headers_not_body_witness :
    headerValues
      (send { apiKey := "ent_k" }
        (.envelope "event" (.track
          { website := "w", name := "n", data := [], url := "", referrer := "",
            userID := "", sessionID := "",
            timestamp := rfc3339 ((none : Option DateTime).getD {}) }))
        "UA" "1.2.3.4")
      "X-Forwarded-User-Agent" = ["UA"] ∧
    headerValues
      (send { apiKey := "ent_k" }
        (.envelope "event" (.track
          { website := "w", name := "n", data := [], url := "", referrer := "",
            userID := "", sessionID := "",
            timestamp := rfc3339 ((none : Option DateTime).getD {}) }))
        "UA" "1.2.3.4")
      "X-Forwarded-For" = ["1.2.3.4"] := by
  have h := (c6_forwarding_headers_not_body { apiKey := "ent_k" } {}
    { websiteID := "w", name := "n", userAgent := "UA", ipAddress := "1.2.3.4" }
    {} {} "" "").2.2.1 _ rfl
  exact ⟨by simpa using h.1, by simpa using h.2⟩

/-- C7 counterexample: a `WebVital` whose `Metric` ("BOGUS") is outside
{LCP, INP, CLS, TTFB, FCP} and whose `Rating` ("meh") is outside
{good, needs-improvement, poor} is not rejected: `TrackVitalWithContext`
validates only non-emptiness and proceeds to build and send the request. -/
theorem c7_nonenumerated_vital_accepted :
    ("BOGUS" ∉ vitalMetricValues) ∧ ("meh" ∉ vitalRatingValues) ∧
    (trackVitalWithContext { apiKey := "ent_k" }
      { websiteID := "abc123", metric := "BOGUS", rating := "meh" }).isOk = true := by
  refine ⟨by decide, by decide, ?_⟩
  rfl

/-- C7 (amended): `TrackVital` fails with a validation error exactly when
`Metric` or `Rating` is the empty string; any non-empty values — including
values outside the enumerated metric and rating sets — pass validation and
the request is issued. -/
theorem c7_vital_validation_amended (c : Client) (v : WebVital)
    (hkey : c.apiKey ≠ "") (hw : v.websiteID ≠ "") :
    (v.metric = "" → trackVitalWithContext c v = .error ErrVitalMetricRequired) ∧
    (v.metric ≠ "" → v.rating = "" →
      trackVitalWithContext c v = .error ErrVitalRatingRequired) ∧
    (v.metric ≠ "" → v.rating ≠ "" → (trackVitalWithContext c v).isOk = true) := by
  refine ⟨?_, ?_, ?_⟩
  · intro h1
    simp [trackVitalWithContext, hkey, hw, h1]
  · intro h1 h2
    simp [trackVitalWithContext, hkey, hw, h1, h2]
  · intro h1 h2
    simp [trackVitalWithContext, hkey, hw, h1, h2, Except.isOk, Except.toBool]

theorem c7_vital_validation_amended_witness :
    trackVitalWithContext { apiKey := "ent_k" } { websiteID := "abc123", metric := "LCP" }
      = .error ErrVitalRatingRequired ∧
    (trackVitalWithContext { apiKey := "ent_k" }
      { websiteID := "abc123", metric := "LCP", rating := "good" }).isOk = true :=
  ⟨(c7_vital_validation_amended _ _ (by decide) (by decide)).2.1 (by decide) rfl,
   (c7_vital_validation_amended _
      { websiteID := "abc123", metric := "LCP", rating := "good" }
      (by decide) (by decide)).2.2 (by decide) (by decide)⟩

/-- C9: the middleware's client-IP extraction follows the fixed precedence
chain: first comma-separated entry of `X-Forwarded-For` (trimmed) when that
header is non-empty, else `X-Real-IP`, else `CF-Connecting-IP`, else
`RemoteAddr` with the text after the last colon (the port) stripped. -/
theorem c9_client_ip_precedence (r : InboundRequest) :
    (headerGet r "X-Forwarded-For" ≠ "" →
      getClientIP r = trimSpace (beforeFirstComma (headerGet r "X-Forwarded-For"))) ∧
    (headerGet r "X-Forwarded-For" = "" → headerGet r "X-Real-IP" ≠ "" →
      getClientIP r = headerGet r "X-Real-IP") ∧
    (headerGet r "X-Forwarded-For" = "" → headerGet r "X-Real-IP" = "" →
      headerGet r "CF-Connecting-IP" ≠ "" →
      getClientIP r = headerGet r "CF-Connecting-IP") ∧
    (headerGet r "X-Forwarded-For" = "" → headerGet r "X-Real-IP" = "" →
      headerGet r "CF-Connecting-IP" = "" →
      getClientIP r = stripAfterLastColon r.remoteAddr) := by
  refine ⟨?_, ?_, ?_, ?_⟩
  · intro h1
    simp [getClientIP, h1]
  · intro h1 h2
    simp [getClientIP, h1, h2]
  · intro h1 h2 h3
    simp [getClientIP, h1, h2, h3]
  · intro h1 h2 h3
    simp [getClientIP, h1, h2, h3]

theorem c9_client_ip_precedence_witness :
    getClientIP { headers := [("X-Forwarded-For", " 1.2.3.4 , 5.6.7.8")],
                  remoteAddr := "9.9.9.9:80" }
      = trimSpace (beforeFirstComma " 1.2.3.4 , 5.6.7.8") ∧
    getClientIP { headers := [("X-Real-IP", "7.7.7.7")], remoteAddr := "9.9.9.9:80" }
      = "7.7.7.7" ∧
    getClientIP { headers := [], remoteAddr := "9.9.9.9:80" }
      = stripAfterLastColon "9.9.9.9:80" :=
  ⟨(c9_client_ip_precedence _).1 (by decide),
   (c9_client_ip_precedence _).2.1 rfl (by decide),
   (c9_client_ip_precedence _).2.2.2 rfl rfl rfl⟩

/-- C8: the generic (second) client substitutes the configured `APIKey` for an
empty `WebsiteID` in the serialized payload's `website_id` entry, both in
`TrackWithContext` and for every event of `BatchWithContext`; a non-empty
`WebsiteID` is sent unchanged. -/
theorem c8_generic_website_id_default (cfg : GClient.Config) (now : DateTime)
    (e : GClient.Event) (events : List GClient.Event) :
    ((GClient.gTrackWithContext cfg now e).body
        = .single (GClient.eventRecord cfg now e) ∧
      (GClient.eventRecord cfg now e).lookup "website_id"
        = some (.str (if e.websiteID = "" then cfg.apiKey else e.websiteID))) ∧
    (events.isEmpty = false →
      GClient.gBatchWithContext cfg now events
        = some { url := cfg.endpoint ++ "/collect/batch"
                 headers := [("Content-Type", "application/json"),
                             ("Authorization", "Bearer " ++ cfg.apiKey)]
                 body := .batch (events.map (GClient.eventRecord cfg now)) } ∧
      ∀ ev ∈ events, (GClient.eventRecord cfg now ev).lookup "website_id"
        = some (.str (if ev.websiteID = "" then cfg.apiKey else ev.websiteID))) := by
  refine ⟨⟨rfl, rfl⟩, ?_⟩
  intro hne
  refine ⟨?_, ?_⟩
  · simp [GClient.gBatchWithContext, hne]
  · intro ev hev
    rfl

theorem c8_generic_website_id_default_witness :
    (GClient.eventRecord { apiKey := "KEY" } {} { event := "e1" }).lookup "website_id"
      = some (.str (if ("" : String) = "" then "KEY" else "")) ∧
    (GClient.eventRecord { apiKey := "KEY" } {} { event := "e2", websiteID := "site" }).lookup
        "website_id"
      = some (.str (if ("site" : String) = "" then "KEY" else "site")) ∧
    GClient.gBatchWithContext { apiKey := "KEY" } {} [{ event := "e1" }]
      = some { url := "/collect/batch"
               headers := [("Content-Type", "application/json"),
                           ("Authorization", "Bearer " ++ "KEY")]
               body := .batch [GClient.eventRecord { apiKey := "KEY" } {} { event := "e1" }] } :=
  ⟨(c8_generic_website_id_default { apiKey := "KEY" } {} { event := "e1" } []).1.2,
   (c8_generic_website_id_default { apiKey := "KEY" } {}
      { event := "e2", websiteID := "site" } []).1.2,
   by
    have h :=
      ((c8_generic_website_id_default { apiKey := "KEY" } {} { event := "e1" }
        [{ event := "e1" }]).2 rfl).1
    simpa using h⟩
